import Mathlib

/-!
# Verification of the KPI-dashboard mock-data core

Shallow embedding of the deterministic synthetic-data generator of the
`kpi-dashboard` repository: the seeded linear-congruential pseudo-random
stream, the inclusive date-range expansion, the three channel mock
generators of `src/linked_in_you_tube_web_kpi_dashboard.jsx`
(`genLinkedInMock`, `genYouTubeMock`, `genWebMock`), their styling-variant
counterparts in `src/src/App.jsx`, and the credential-taking fetch
placeholders (`fetchLinkedInReal`, `fetchYouTubeReal`, `fetchWebReal`).

JavaScript numbers are modelled exactly: finite values as rationals, plus
the non-finite values NaN and ±Infinity produced by JavaScript division
(`0/0 = NaN`, `x/0 = ±Infinity`), since the generators divide accumulated
sums without guarding every divisor.  Calendar dates are modelled as day
numbers (days since 1970-01-01); `daysFromCivil` converts a Gregorian
calendar date to its day number so concrete scenarios can be stated with
real dates.
-/

namespace KpiDashboard

/-- A JavaScript number: a finite (here: exact rational) value, NaN, or a
signed infinity.  The generators only ever hit the finite and NaN cases,
but division is modelled in full so this is a fact proved, not assumed. -/
inductive JsNum where
  | num (q : ℚ)
  | nan
  | posInf
  | negInf
deriving DecidableEq, Repr

/-- Shorthand for a finite JavaScript number. -/
def jn (q : ℚ) : JsNum := JsNum.num q

namespace JsNum

/-- JavaScript addition: NaN propagates, opposite infinities give NaN. -/
def add : JsNum → JsNum → JsNum
  | num a, num b => num (a + b)
  | nan, _ => nan
  | _, nan => nan
  | posInf, negInf => nan
  | negInf, posInf => nan
  | posInf, _ => posInf
  | _, posInf => posInf
  | negInf, _ => negInf
  | _, negInf => negInf

/-- JavaScript subtraction: NaN propagates, ∞ − ∞ gives NaN. -/
def sub : JsNum → JsNum → JsNum
  | num a, num b => num (a - b)
  | nan, _ => nan
  | _, nan => nan
  | posInf, posInf => nan
  | negInf, negInf => nan
  | posInf, _ => posInf
  | negInf, _ => negInf
  | num _, posInf => negInf
  | num _, negInf => posInf

/-- JavaScript multiplication: NaN propagates, 0 · ∞ gives NaN. -/
def mul : JsNum → JsNum → JsNum
  | num a, num b => num (a * b)
  | nan, _ => nan
  | _, nan => nan
  | posInf, posInf => posInf
  | posInf, negInf => negInf
  | negInf, posInf => negInf
  | negInf, negInf => posInf
  | posInf, num b => if 0 < b then posInf else if b < 0 then negInf else nan
  | num a, posInf => if 0 < a then posInf else if a < 0 then negInf else nan
  | negInf, num b => if 0 < b then negInf else if b < 0 then posInf else nan
  | num a, negInf => if 0 < a then negInf else if a < 0 then posInf else nan

/-- JavaScript division: NaN propagates, `0/0` and `∞/∞` give NaN, a
non-zero finite value divided by zero gives a signed infinity (the model
has no negative zero; divisors in the embedded code are never negative
zero). -/
def div : JsNum → JsNum → JsNum
  | nan, _ => nan
  | _, nan => nan
  | num a, num b =>
      if b = 0 then (if 0 < a then posInf else if a < 0 then negInf else nan)
      else num (a / b)
  | posInf, posInf => nan
  | posInf, negInf => nan
  | negInf, posInf => nan
  | negInf, negInf => nan
  | posInf, num b => if 0 ≤ b then posInf else negInf
  | negInf, num b => if 0 ≤ b then negInf else posInf
  | num _, posInf => num 0
  | num _, negInf => num 0

/-- JavaScript truthiness of a number: `0` and `NaN` are falsy, everything
else is truthy. -/
def truthy : JsNum → Bool
  | num q => decide (q ≠ 0)
  | nan => false
  | posInf => true
  | negInf => true

instance : Add JsNum := ⟨JsNum.add⟩
instance : Sub JsNum := ⟨JsNum.sub⟩
instance : Mul JsNum := ⟨JsNum.mul⟩
instance : Div JsNum := ⟨JsNum.div⟩

@[simp] theorem add_num (a b : ℚ) : num a + num b = num (a + b) := rfl
@[simp] theorem sub_num (a b : ℚ) : num a - num b = num (a - b) := rfl
@[simp] theorem mul_num (a b : ℚ) : num a * num b = num (a * b) := rfl
theorem div_num (a b : ℚ) (hb : b ≠ 0) : num a / num b = num (a / b) := by
  show div (num a) (num b) = _
  simp [div, hb]

end JsNum

/-- `Math.round` of JavaScript: round half toward positive infinity,
i.e. `⌊x + 1/2⌋` on finite values; NaN and the infinities pass through. -/
def jsRound : JsNum → JsNum
  | JsNum.num q => JsNum.num ((⌊q + 1/2⌋ : ℤ) : ℚ)
  | x => x

@[simp] theorem jsRound_num (q : ℚ) :
    jsRound (JsNum.num q) = JsNum.num ((⌊q + 1/2⌋ : ℤ) : ℚ) := rfl

/-! ## The seeded pseudo-random stream

Source (`seeded`, both files):
```js
function seeded(seed) {
  let t = seed % 2147483647;
  return () => (t = (t * 48271) % 2147483647) / 2147483647;
}
```
JavaScript `%` is the truncating remainder (sign of the dividend), which
is `Int.tmod`.  The closure is embedded as the captured initial state
(`seeded`), the state update performed by each call (`lcgNext`), and the
value a call returns (`lcgOut`). -/

/-- Initial state `t` captured by the closure returned by `seeded(seed)`:
`seed % 2147483647` with the truncating JavaScript remainder. -/
def seeded (seed : ℤ) : ℤ := seed.tmod 2147483647

/-- One state update of the stream: `t = (t * 48271) % 2147483647`. -/
def lcgNext (t : ℤ) : ℤ := (t * 48271).tmod 2147483647

/-- `lcgSteps n t`: the state after `n` calls starting from state `t`. -/
def lcgSteps : ℕ → ℤ → ℤ
  | 0, t => t
  | n + 1, t => lcgNext (lcgSteps n t)

/-- The value returned by a call when it has just updated the state to
`t`: `t / 2147483647` (exact rational in this model). -/
def lcgOut (t : ℤ) : ℚ := (t : ℚ) / 2147483647

/-- State after the `n`-th call to the function returned by
`seeded(seed)` (state `0` is the captured initial state). -/
def seededState (seed : ℤ) (n : ℕ) : ℤ := lcgSteps n (seeded seed)

/-- The value returned by the `n`-th call (`n ≥ 1`) to the function
returned by `seeded(seed)`. -/
def seededOut (seed : ℤ) (n : ℕ) : ℚ := lcgOut (seededState seed n)

/-- One draw `rnd()` inside a generator, from current state `t`: the
returned JavaScript number together with the updated state. -/
def draw (t : ℤ) : JsNum × ℤ :=
  (JsNum.num (lcgOut (lcgNext t)), lcgNext t)

/-! ## Date-range expansion

Source (`rangeDays`, both files):
```js
function rangeDays(startISO, endISO) {
  const res = [];
  for (let d = new Date(start); d <= end; d.setDate(d.getDate() + 1)) {
    res.push(toISODate(d));
  }
  return res;
}
```
Dates are modelled as day numbers; the loop pushes `start, start+1, …`
while the running date is `≤ end`, i.e. the list
`[start, start+1, …, end]`, empty when `end < start`. -/

/-- Inclusive day-by-day expansion of a date range, as day numbers. -/
def rangeDays (startISO endISO : ℤ) : List ℤ :=
  (List.range (endISO + 1 - startISO).toNat).map (fun i : ℕ => startISO + (i : ℤ))

/-- Day number (days since 1970-01-01) of a proleptic Gregorian calendar
date, used to state concrete scenarios with real dates. -/
def daysFromCivil (y m d : ℤ) : ℤ :=
  let yr := if m ≤ 2 then y - 1 else y
  let era := Int.fdiv yr 400
  let yoe := yr - era * 400
  let mp := if m ≤ 2 then m + 9 else m - 3
  let doy := Int.fdiv (153 * mp + 2) 5 + d - 1
  let doe := yoe * 365 + Int.fdiv yoe 4 - Int.fdiv yoe 100 + doy
  era * 146097 + doe - 719468

/-! ## LinkedIn channel generator (main dashboard file)

Source (`genLinkedInMock`, `src/linked_in_you_tube_web_kpi_dashboard.jsx`
lines 111–168):
```js
function genLinkedInMock(fromISO, toISO) {
  const dates = rangeDays(fromISO, toISO);
  const rnd = seeded(42);
  let impressions = 0, clicks = 0, spend = 0, leads = 0;
  const posts = dates.map((date) => {
    const imp = Math.round(800 + rnd() * 1800);
    const rea = Math.round(20 + rnd() * 120);
    const com = Math.round(rnd() * 18);
    const sha = Math.round(rnd() * 15);
    impressions += imp;
    clicks += Math.round(imp * (0.012 + rnd() * 0.01));
    spend += 15 + rnd() * 60;
    leads += Math.round(rnd() * 4);
    return { date, impressions: imp, reactions: rea, comments: com, shares: sha };
  });
  const ctr = clicks / impressions;
  const cpc = spend / clicks;
  const cpl = leads ? spend / leads : 0;
  ...
  return { spend, impressions, clicks, leads, ctr, cpc, cpl, posts, topAds, postItems, campaigns };
}
```
The embedding covers the daily series and the summary scalars.  The
elided `topAds` and `postTitles` are hard-coded constant lists, and
`campaigns` is a fixed constant list with per-row ratios; `postItems`
draws further values from the stream only after the daily loop and the
summary ratios are complete, so none of them feed back into any field
modelled here. -/

/-- One LinkedIn daily record (`posts` entry). -/
structure LiDay where
  date : ℤ
  impressions : JsNum
  reactions : JsNum
  comments : JsNum
  shares : JsNum
deriving DecidableEq, Repr

/-- Loop state of `genLinkedInMock`: the stream state and the four
running sums, plus the daily records built so far. -/
structure LiAcc where
  t : ℤ
  impressions : JsNum
  clicks : JsNum
  spend : JsNum
  leads : JsNum
  posts : List LiDay
deriving DecidableEq, Repr

/-- Result object of `genLinkedInMock`. -/
structure LiOut where
  spend : JsNum
  impressions : JsNum
  clicks : JsNum
  leads : JsNum
  ctr : JsNum
  cpc : JsNum
  cpl : JsNum
  posts : List LiDay
deriving DecidableEq, Repr

/-- What one iteration of the `dates.map` body of `genLinkedInMock`
produces: the daily record, the three summand values added to `clicks`,
`spend` and `leads` (`impressions` gains the record's own `impressions`
field), and the stream state after the day's seven draws. -/
structure LiDayOut where
  post : LiDay
  clickAdd : JsNum
  spendAdd : JsNum
  leadAdd : JsNum
  t : ℤ
deriving DecidableEq, Repr

/-- One iteration of the daily loop of `genLinkedInMock`, draws in source
order: `imp`, `rea`, `com`, `sha`, the click rate, the spend increment,
the leads increment. -/
def liDay (t : ℤ) (date : ℤ) : LiDayOut :=
  let d1 := draw t
  let imp := jsRound (jn 800 + d1.1 * jn 1800)
  let d2 := draw d1.2
  let rea := jsRound (jn 20 + d2.1 * jn 120)
  let d3 := draw d2.2
  let com := jsRound (d3.1 * jn 18)
  let d4 := draw d3.2
  let sha := jsRound (d4.1 * jn 15)
  let d5 := draw d4.2
  let clickAdd := jsRound (imp * (jn 0.012 + d5.1 * jn 0.01))
  let d6 := draw d5.2
  let spendAdd := jn 15 + d6.1 * jn 60
  let d7 := draw d6.2
  let leadAdd := jsRound (d7.1 * jn 4)
  { post := ⟨date, imp, rea, com, sha⟩
    clickAdd := clickAdd
    spendAdd := spendAdd
    leadAdd := leadAdd
    t := d7.2 }

/-- Fold step of the daily loop: accumulate the sums and append the
record. -/
def liStep (acc : LiAcc) (date : ℤ) : LiAcc :=
  let d := liDay acc.t date
  { t := d.t
    impressions := acc.impressions + d.post.impressions
    clicks := acc.clicks + d.clickAdd
    spend := acc.spend + d.spendAdd
    leads := acc.leads + d.leadAdd
    posts := acc.posts ++ [d.post] }

/-- Initial loop state: fresh stream `seeded(42)`, all sums `0`. -/
def liInit : LiAcc := ⟨seeded 42, jn 0, jn 0, jn 0, jn 0, []⟩

/-- The post-loop summary code of `genLinkedInMock`: the unguarded
ratios `ctr = clicks / impressions` and `cpc = spend / clicks`, the
guarded `cpl = leads ? spend / leads : 0`. -/
def liFinish (fin : LiAcc) : LiOut :=
  { spend := fin.spend
    impressions := fin.impressions
    clicks := fin.clicks
    leads := fin.leads
    ctr := fin.clicks / fin.impressions
    cpc := fin.spend / fin.clicks
    cpl := if fin.leads.truthy then fin.spend / fin.leads else jn 0
    posts := fin.posts }

/-- `genLinkedInMock(fromISO, toISO)` of the main dashboard file. -/
def genLinkedInMock (fromISO toISO : ℤ) : LiOut :=
  liFinish ((rangeDays fromISO toISO).foldl liStep liInit)

/-! ## YouTube channel generator (main dashboard file)

Source (`genYouTubeMock`, lines 170–190):
```js
function genYouTubeMock(fromISO, toISO) {
  const dates = rangeDays(fromISO, toISO);
  const rnd = seeded(7);
  let views = 0, watchTime = 0, subsGained = 0, subsLost = 0, avgView = 0;
  const daily = dates.map((date) => {
    const v = Math.round(300 + rnd() * 1200);
    const wt = Math.round(v * (rnd() * 1.8 + 2.2)); // minutes
    const av = Math.round((wt / v) * 60); // seconds
    const sg = Math.round(rnd() * 15);
    const sl = Math.round(rnd() * 5);
    views += v; watchTime += wt; subsGained += sg; subsLost += sl; avgView += av;
    return { date, views: v, watchTime: wt, avgViewSeconds: av, subs: sg - sl };
  });
  avgView = avgView / daily.length;
  ...
  return { views, watchTime, subsGained, subsLost, averageViewDuration: avgView, daily, topVideos };
}
```
The elided `topVideos` is a hard-coded constant list. -/

/-- One YouTube daily record (`daily` entry). -/
structure YtDay where
  date : ℤ
  views : JsNum
  watchTime : JsNum
  avgViewSeconds : JsNum
  subs : JsNum
deriving DecidableEq, Repr

/-- Loop state of `genYouTubeMock`. -/
structure YtAcc where
  t : ℤ
  views : JsNum
  watchTime : JsNum
  subsGained : JsNum
  subsLost : JsNum
  avgView : JsNum
  daily : List YtDay
deriving DecidableEq, Repr

/-- Result object of `genYouTubeMock`. -/
structure YtOut where
  views : JsNum
  watchTime : JsNum
  subsGained : JsNum
  subsLost : JsNum
  averageViewDuration : JsNum
  daily : List YtDay
deriving DecidableEq, Repr

/-- What one iteration of the `dates.map` body of `genYouTubeMock`
produces: the record, the separate `sg`/`sl`/`av` summands (the record
only carries `sg - sl`), and the stream state after the day's four draws
(`av` is derived from `wt` and `v` without a draw). -/
structure YtDayOut where
  post : YtDay
  sg : JsNum
  sl : JsNum
  av : JsNum
  t : ℤ
deriving DecidableEq, Repr

/-- One iteration of the daily loop, draws in source order: `v`, the
watch-time factor, `sg`, `sl`. -/
def ytDay (t : ℤ) (date : ℤ) : YtDayOut :=
  let d1 := draw t
  let v := jsRound (jn 300 + d1.1 * jn 1200)
  let d2 := draw d1.2
  let wt := jsRound (v * (d2.1 * jn 1.8 + jn 2.2))
  let av := jsRound ((wt / v) * jn 60)
  let d3 := draw d2.2
  let sg := jsRound (d3.1 * jn 15)
  let d4 := draw d3.2
  let sl := jsRound (d4.1 * jn 5)
  { post := ⟨date, v, wt, av, sg - sl⟩, sg := sg, sl := sl, av := av, t := d4.2 }

/-- Fold step of the daily loop of `genYouTubeMock`: accumulate the sums
and append the record. -/
def ytStep (acc : YtAcc) (date : ℤ) : YtAcc :=
  let d := ytDay acc.t date
  { t := d.t
    views := acc.views + d.post.views
    watchTime := acc.watchTime + d.post.watchTime
    subsGained := acc.subsGained + d.sg
    subsLost := acc.subsLost + d.sl
    avgView := acc.avgView + d.av
    daily := acc.daily ++ [d.post] }

/-- Initial loop state: fresh stream `seeded(7)`, all sums `0`. -/
def ytInit : YtAcc := ⟨seeded 7, jn 0, jn 0, jn 0, jn 0, jn 0, []⟩

/-- Post-loop code of `genYouTubeMock`:
`avgView = avgView / daily.length` (an unguarded division: `0 / 0 = NaN`
on an empty range). -/
def ytFinish (fin : YtAcc) : YtOut :=
  { views := fin.views
    watchTime := fin.watchTime
    subsGained := fin.subsGained
    subsLost := fin.subsLost
    averageViewDuration := fin.avgView / jn (fin.daily.length : ℚ)
    daily := fin.daily }

/-- `genYouTubeMock(fromISO, toISO)` of the main dashboard file. -/
def genYouTubeMock (fromISO toISO : ℤ) : YtOut :=
  ytFinish ((rangeDays fromISO toISO).foldl ytStep ytInit)

/-! ## Website channel generator (main dashboard file)

Source (`genWebMock`, lines 192–217):
```js
function genWebMock(fromISO, toISO) {
  const dates = rangeDays(fromISO, toISO);
  const rnd = seeded(1337);
  let sessions = 0, users = 0, pageviews = 0, conversions = 0, revenue = 0, duration = 0;
  const daily = dates.map((date) => {
    const ses = Math.round(400 + rnd() * 1600);
    const usr = Math.round(ses * (0.75 + rnd() * 0.2));
    const pv = Math.round(ses * (1.7 + rnd() * 1.5));
    const conv = Math.round(ses * (0.015 + rnd() * 0.02));
    const rev = Math.round(conv * (50 + rnd() * 200));
    const dur = Math.round((120 + rnd() * 90));
    sessions += ses; users += usr; pageviews += pv; conversions += conv; revenue += rev; duration += dur;
    return { date, sessions: ses, users: usr, pageviews: pv, conversions: conv, revenue: rev, avgSessionSec: dur };
  });
  const bounceRate = 0.46; // fixed for demo
  ...
  return { sessions, users, pageviews, conversions, revenue, bounceRate,
           avgSessionDuration: Math.round(duration / daily.length), daily, topSources };
}
```
The elided `topSources` is a constant-shaped list of rounded fractions of
the `sessions` sum that feeds into no other field. -/

/-- One website daily record (`daily` entry). -/
structure WebDay where
  date : ℤ
  sessions : JsNum
  users : JsNum
  pageviews : JsNum
  conversions : JsNum
  revenue : JsNum
  avgSessionSec : JsNum
deriving DecidableEq, Repr

/-- Loop state of `genWebMock`. -/
structure WebAcc where
  t : ℤ
  sessions : JsNum
  users : JsNum
  pageviews : JsNum
  conversions : JsNum
  revenue : JsNum
  duration : JsNum
  daily : List WebDay
deriving DecidableEq, Repr

/-- Result object of `genWebMock`. -/
structure WebOut where
  sessions : JsNum
  users : JsNum
  pageviews : JsNum
  conversions : JsNum
  revenue : JsNum
  bounceRate : JsNum
  avgSessionDuration : JsNum
  daily : List WebDay
deriving DecidableEq, Repr

/-- What one iteration of the `dates.map` body of `genWebMock` produces:
the record (all six per-day values are also the summands) and the stream
state after the day's six draws. -/
structure WebDayOut where
  post : WebDay
  t : ℤ
deriving DecidableEq, Repr

/-- One iteration of the daily loop, draws in source order: `ses`, the
users factor, the pageviews factor, the conversion rate, the revenue
factor, `dur`. -/
def webDay (t : ℤ) (date : ℤ) : WebDayOut :=
  let d1 := draw t
  let ses := jsRound (jn 400 + d1.1 * jn 1600)
  let d2 := draw d1.2
  let usr := jsRound (ses * (jn 0.75 + d2.1 * jn 0.2))
  let d3 := draw d2.2
  let pv := jsRound (ses * (jn 1.7 + d3.1 * jn 1.5))
  let d4 := draw d3.2
  let conv := jsRound (ses * (jn 0.015 + d4.1 * jn 0.02))
  let d5 := draw d4.2
  let rev := jsRound (conv * (jn 50 + d5.1 * jn 200))
  let d6 := draw d5.2
  let dur := jsRound (jn 120 + d6.1 * jn 90)
  { post := ⟨date, ses, usr, pv, conv, rev, dur⟩, t := d6.2 }

/-- Fold step of the daily loop of `genWebMock`: accumulate the sums and
append the record. -/
def webStep (acc : WebAcc) (date : ℤ) : WebAcc :=
  let d := webDay acc.t date
  { t := d.t
    sessions := acc.sessions + d.post.sessions
    users := acc.users + d.post.users
    pageviews := acc.pageviews + d.post.pageviews
    conversions := acc.conversions + d.post.conversions
    revenue := acc.revenue + d.post.revenue
    duration := acc.duration + d.post.avgSessionSec
    daily := acc.daily ++ [d.post] }

/-- Initial loop state: fresh stream `seeded(1337)`, all sums `0`. -/
def webInit : WebAcc := ⟨seeded 1337, jn 0, jn 0, jn 0, jn 0, jn 0, jn 0, []⟩

/-- Post-loop code of `genWebMock`: the constant `bounceRate = 0.46` and
`avgSessionDuration = Math.round(duration / daily.length)` (unguarded
division: `Math.round(0 / 0) = NaN` on an empty range). -/
def webFinish (fin : WebAcc) : WebOut :=
  { sessions := fin.sessions
    users := fin.users
    pageviews := fin.pageviews
    conversions := fin.conversions
    revenue := fin.revenue
    bounceRate := jn 0.46
    avgSessionDuration := jsRound (fin.duration / jn (fin.daily.length : ℚ))
    daily := fin.daily }

/-- `genWebMock(fromISO, toISO)` of the main dashboard file. -/
def genWebMock (fromISO toISO : ℤ) : WebOut :=
  webFinish ((rangeDays fromISO toISO).foldl webStep webInit)

/-! ## The real-API placeholders (main dashboard file, lines 222–237)

```js
async function fetchLinkedInReal({ token, accountId, fromISO, toISO }) {
  return genLinkedInMock(fromISO, toISO); // demo fallback
}
async function fetchYouTubeReal({ apiKey, channelId, fromISO, toISO }) {
  return genYouTubeMock(fromISO, toISO);
}
async function fetchWebReal({ provider, credential, propertyId, fromISO, toISO }) {
  return genWebMock(fromISO, toISO);
}
```
Each immediately resolves with the corresponding mock generator's output;
the credential arguments are never read. -/

/-- `fetchLinkedInReal`: ignores `token` and `accountId`. -/
def fetchLinkedInReal (token accountId : String) (fromISO toISO : ℤ) : LiOut :=
  genLinkedInMock fromISO toISO

/-- `fetchYouTubeReal`: ignores `apiKey` and `channelId`. -/
def fetchYouTubeReal (apiKey channelId : String) (fromISO toISO : ℤ) : YtOut :=
  genYouTubeMock fromISO toISO

/-- `fetchWebReal`: ignores `provider`, `credential` and `propertyId`. -/
def fetchWebReal (provider credential propertyId : String) (fromISO toISO : ℤ) : WebOut :=
  genWebMock fromISO toISO

/-! ## The styling-variant component (`src/src/App.jsx`)

`src/src/App.jsx` contains two textually identical copies of its own
`rangeDays`, `seeded` and the three mock generators (lines 68–131 and
1177–1243).  `rangeDays` and `seeded` coincide with the main dashboard
file; the generators do not: each daily loop performs fewer draws
(LinkedIn 5 instead of 7: no `com`/`sha`; YouTube 3 instead of 4: one
`subs` draw `Math.round(rnd() * 25)` instead of `sg`/`sl`; Web 4 instead
of 6: no `pv`/`dur`), the records carry fewer fields, and the summaries
omit `cpl` (LinkedIn), replace `subsGained`/`subsLost` by `subscribers`
(YouTube), and fix `avgSessionDuration = 145` (Web). -/

namespace AppVariant

/-- `seeded` of `src/src/App.jsx` (textually identical to the main
file's). -/
def seeded (seed : ℤ) : ℤ := seed.tmod 2147483647

/-- The stream state update of `src/src/App.jsx`. -/
def lcgNext (t : ℤ) : ℤ := (t * 48271).tmod 2147483647

/-- `rangeDays` of `src/src/App.jsx` (textually identical to the main
file's). -/
def rangeDays (startISO endISO : ℤ) : List ℤ :=
  (List.range (endISO + 1 - startISO).toNat).map (fun i : ℕ => startISO + (i : ℤ))

/-- One draw `rnd()` of the variant's stream. -/
def draw (t : ℤ) : JsNum × ℤ :=
  (JsNum.num (lcgOut (lcgNext t)), lcgNext t)

/-- One LinkedIn daily record of the variant: only `date`, `impressions`
and `reactions`. -/
structure LiDay where
  date : ℤ
  impressions : JsNum
  reactions : JsNum
deriving DecidableEq, Repr

/-- Loop state of the variant's `genLinkedInMock`. -/
structure LiAcc where
  t : ℤ
  impressions : JsNum
  clicks : JsNum
  spend : JsNum
  leads : JsNum
  posts : List LiDay
deriving DecidableEq, Repr

/-- Result object of the variant's `genLinkedInMock`: no `cpl` field. -/
structure LiOut where
  spend : JsNum
  impressions : JsNum
  clicks : JsNum
  leads : JsNum
  ctr : JsNum
  cpc : JsNum
  posts : List LiDay
deriving DecidableEq, Repr

/-- Fold step of the variant's LinkedIn daily loop, draws in source
order: `imp`, `rea`, the click rate, the spend increment, the leads
increment — five draws, no `com`/`sha`. -/
def liStep (acc : LiAcc) (date : ℤ) : LiAcc :=
  let d1 := draw acc.t
  let imp := jsRound (jn 800 + d1.1 * jn 1800)
  let d2 := draw d1.2
  let rea := jsRound (jn 20 + d2.1 * jn 120)
  let d3 := draw d2.2
  let clickAdd := jsRound (imp * (jn 0.012 + d3.1 * jn 0.01))
  let d4 := draw d3.2
  let spendAdd := jn 15 + d4.1 * jn 60
  let d5 := draw d4.2
  let leadAdd := jsRound (d5.1 * jn 4)
  { t := d5.2
    impressions := acc.impressions + imp
    clicks := acc.clicks + clickAdd
    spend := acc.spend + spendAdd
    leads := acc.leads + leadAdd
    posts := acc.posts ++ [⟨date, imp, rea⟩] }

/-- `genLinkedInMock` of `src/src/App.jsx` (lines 84–100 and
1193–1209). -/
def genLinkedInMock (fromISO toISO : ℤ) : LiOut :=
  let fin := (rangeDays fromISO toISO).foldl liStep ⟨seeded 42, jn 0, jn 0, jn 0, jn 0, []⟩
  { spend := fin.spend
    impressions := fin.impressions
    clicks := fin.clicks
    leads := fin.leads
    ctr := fin.clicks / fin.impressions
    cpc := fin.spend / fin.clicks
    posts := fin.posts }

/-- One YouTube daily record of the variant: `subscribers` draw instead
of `sg`/`sl`, no `avgViewSeconds` field. -/
structure YtDay where
  date : ℤ
  views : JsNum
  watchTime : JsNum
  subscribers : JsNum
deriving DecidableEq, Repr

/-- Loop state of the variant's `genYouTubeMock`. -/
structure YtAcc where
  t : ℤ
  views : JsNum
  watchTime : JsNum
  avgView : JsNum
  subscribers : JsNum
  daily : List YtDay
deriving DecidableEq, Repr

/-- Result object of the variant's `genYouTubeMock`. -/
structure YtOut where
  views : JsNum
  watchTime : JsNum
  subscribers : JsNum
  averageViewDuration : JsNum
  daily : List YtDay
deriving DecidableEq, Repr

/-- Fold step of the variant's YouTube daily loop, draws in source
order: `v`, the watch-time factor, `subs` — three draws. -/
def ytStep (acc : YtAcc) (date : ℤ) : YtAcc :=
  let d1 := draw acc.t
  let v := jsRound (jn 300 + d1.1 * jn 1200)
  let d2 := draw d1.2
  let wt := jsRound (v * (d2.1 * jn 1.8 + jn 2.2))
  let av := jsRound ((wt / v) * jn 60)
  let d3 := draw d2.2
  let subs := jsRound (d3.1 * jn 25)
  { t := d3.2
    views := acc.views + v
    watchTime := acc.watchTime + wt
    avgView := acc.avgView + av
    subscribers := acc.subscribers + subs
    daily := acc.daily ++ [⟨date, v, wt, subs⟩] }

/-- `genYouTubeMock` of `src/src/App.jsx` (lines 102–116 and
1211–1225). -/
def genYouTubeMock (fromISO toISO : ℤ) : YtOut :=
  let fin := (rangeDays fromISO toISO).foldl ytStep ⟨seeded 7, jn 0, jn 0, jn 0, jn 0, []⟩
  { views := fin.views
    watchTime := fin.watchTime
    subscribers := fin.subscribers
    averageViewDuration := fin.avgView / jn (fin.daily.length : ℚ)
    daily := fin.daily }

/-- One website daily record of the variant: no `users`, `pageviews` or
`avgSessionSec` fields. -/
structure WebDay where
  date : ℤ
  sessions : JsNum
  conversions : JsNum
  revenue : JsNum
deriving DecidableEq, Repr

/-- Loop state of the variant's `genWebMock`. -/
structure WebAcc where
  t : ℤ
  sessions : JsNum
  users : JsNum
  conversions : JsNum
  revenue : JsNum
  daily : List WebDay
deriving DecidableEq, Repr

/-- Result object of the variant's `genWebMock`. -/
structure WebOut where
  sessions : JsNum
  users : JsNum
  conversions : JsNum
  revenue : JsNum
  bounceRate : JsNum
  avgSessionDuration : JsNum
  daily : List WebDay
deriving DecidableEq, Repr

/-- Fold step of the variant's Web daily loop, draws in source order:
`ses`, the users factor, the conversion rate, the revenue factor — four
draws, no `pv`/`dur`. -/
def webStep (acc : WebAcc) (date : ℤ) : WebAcc :=
  let d1 := draw acc.t
  let ses := jsRound (jn 400 + d1.1 * jn 1600)
  let d2 := draw d1.2
  let usr := jsRound (ses * (jn 0.75 + d2.1 * jn 0.2))
  let d3 := draw d2.2
  let conv := jsRound (ses * (jn 0.015 + d3.1 * jn 0.02))
  let d4 := draw d3.2
  let rev := jsRound (conv * (jn 50 + d4.1 * jn 200))
  { t := d4.2
    sessions := acc.sessions + ses
    users := acc.users + usr
    conversions := acc.conversions + conv
    revenue := acc.revenue + rev
    daily := acc.daily ++ [⟨date, ses, conv, rev⟩] }

/-- `genWebMock` of `src/src/App.jsx` (lines 118–133 and 1227–1243):
`bounceRate = 0.46` and `avgSessionDuration = 145` are constants. -/
def genWebMock (fromISO toISO : ℤ) : WebOut :=
  let fin := (rangeDays fromISO toISO).foldl webStep ⟨seeded 1337, jn 0, jn 0, jn 0, jn 0, []⟩
  { sessions := fin.sessions
    users := fin.users
    conversions := fin.conversions
    revenue := fin.revenue
    bounceRate := jn 0.46
    avgSessionDuration := jn 145
    daily := fin.daily }

end AppVariant

/-! ## Supporting lemmas -/

/-- An inverted range expands to no days: the loop guard `d <= end`
fails immediately. -/
theorem rangeDays_of_inverted {s e : ℤ} (h : e < s) : rangeDays s e = [] := by
  unfold rangeDays
  have hz : (e + 1 - s).toNat = 0 := by omega
  rw [hz]
  rfl

/-- The truncating remainder is odd in the dividend. -/
theorem tmod_neg_left (a b : ℤ) : (-a).tmod b = -(a.tmod b) := by
  rw [Int.tmod_def, Int.tmod_def, Int.neg_tdiv]
  ring

/-- Reducing the left factor by the truncating remainder first does not
change the truncating remainder of a product with a nonnegative factor. -/
theorem tmod_mul_congr {p : ℤ} (hp : 0 < p) (x c : ℤ) (hc : 0 ≤ c) :
    (x.tmod p * c).tmod p = (x * c).tmod p := by
  have key : ∀ y : ℤ, 0 ≤ y → (y.tmod p * c).tmod p = (y * c).tmod p := by
    intro y hy
    have h1 : y.tmod p = y % p := Int.tmod_eq_emod hy hp.le
    have h2 : 0 ≤ y % p := Int.emod_nonneg y (by omega)
    rw [h1, Int.tmod_eq_emod (by positivity) hp.le,
      Int.tmod_eq_emod (by positivity) hp.le]
    conv_lhs => rw [Int.mul_emod]
    rw [Int.emod_emod_of_dvd y dvd_rfl, ← Int.mul_emod]
  rcases le_or_lt 0 x with hx | hx
  · exact key x hx
  · have hy : 0 ≤ -x := by omega
    calc (x.tmod p * c).tmod p
        = ((-(-x)).tmod p * c).tmod p := by rw [neg_neg]
      _ = (-((-x).tmod p * c)).tmod p := by rw [tmod_neg_left]; ring_nf
      _ = -(((-x).tmod p * c).tmod p) := tmod_neg_left _ _
      _ = -(((-x) * c).tmod p) := by rw [key (-x) hy]
      _ = (-((-x) * c)).tmod p := (tmod_neg_left _ _).symm
      _ = (x * c).tmod p := by ring_nf

/-- Closed form of the stream state: after `n ≥ 1` calls the state is
`(t0 * 48271 ^ n) % 2147483647` (truncating remainder). -/
theorem lcgSteps_tmod_pow (t0 : ℤ) (n : ℕ) (hn : 1 ≤ n) :
    lcgSteps n t0 = (t0 * 48271 ^ n).tmod 2147483647 := by
  induction n, hn using Nat.le_induction with
  | base => simp [lcgSteps, lcgNext]
  | succ n hn ih =>
      show lcgNext (lcgSteps n t0) = _
      rw [ih, lcgNext, tmod_mul_congr (by norm_num) _ _ (by norm_num)]
      ring_nf

/-- The state stays nonnegative from a nonnegative state. -/
theorem lcgNext_nonneg {t : ℤ} (h : 0 ≤ t) : 0 ≤ lcgNext t :=
  Int.tmod_nonneg _ (by positivity)

/-- The state stays below the modulus (for any incoming state). -/
theorem lcgNext_lt (t : ℤ) : lcgNext t < 2147483647 :=
  Int.tmod_lt_of_pos _ (by norm_num)

/-- Iterated states stay nonnegative from a nonnegative state. -/
theorem lcgSteps_nonneg {t : ℤ} (h : 0 ≤ t) : ∀ n : ℕ, 0 ≤ lcgSteps n t
  | 0 => h
  | n + 1 => lcgNext_nonneg (lcgSteps_nonneg h n)

/-- A draw from a nonnegative state returns a value in `[0, 1)`. -/
theorem lcgOut_nonneg {t : ℤ} (h : 0 ≤ t) : 0 ≤ lcgOut (lcgNext t) := by
  unfold lcgOut
  have := lcgNext_nonneg h
  positivity

/-- The LinkedIn daily loop body advances the stream state by exactly
seven draws. -/
theorem liDay_t (t date : ℤ) : (liDay t date).t = lcgSteps 7 t := rfl

/-- The YouTube daily loop body advances the stream state by exactly
four draws. -/
theorem ytDay_t (t date : ℤ) : (ytDay t date).t = lcgSteps 4 t := rfl

/-- The website daily loop body advances the stream state by exactly
six draws. -/
theorem webDay_t (t date : ℤ) : (webDay t date).t = lcgSteps 6 t := rfl

/-- Element `i` of the expanded range is `start + i`. -/
theorem rangeDays_get (s e : ℤ) (i : ℕ) (h : i < (rangeDays s e).length) :
    (rangeDays s e).get ⟨i, h⟩ = s + i := by
  simp only [rangeDays, List.get_eq_getElem, List.getElem_map, List.getElem_range]

/-- The LinkedIn fold step appends exactly one record. -/
theorem liStep_posts (acc : LiAcc) (d : ℤ) :
    (liStep acc d).posts = acc.posts ++ [(liDay acc.t d).post] := rfl

/-- The LinkedIn daily record carries the day's date. -/
theorem liDay_post_date (t d : ℤ) : (liDay t d).post.date = d := rfl

/-- The LinkedIn fold step advances the stream state like the day
body. -/
theorem liStep_t (acc : LiAcc) (d : ℤ) : (liStep acc d).t = (liDay acc.t d).t := rfl

/-- The LinkedIn fold step adds the day's click increment. -/
theorem liStep_clicks (acc : LiAcc) (d : ℤ) :
    (liStep acc d).clicks = acc.clicks + (liDay acc.t d).clickAdd := rfl

/-- The dates of the records built by the LinkedIn loop are exactly the
input dates, in order. -/
theorem li_fold_dates (l : List ℤ) (acc : LiAcc) :
    ((l.foldl liStep acc).posts).map LiDay.date = acc.posts.map LiDay.date ++ l := by
  induction l generalizing acc with
  | nil => simp
  | cons d l ih =>
      rw [List.foldl_cons, ih, liStep_posts]
      simp [liDay_post_date]

/-- The YouTube fold step appends exactly one record. -/
theorem ytStep_daily (acc : YtAcc) (d : ℤ) :
    (ytStep acc d).daily = acc.daily ++ [(ytDay acc.t d).post] := rfl

/-- The YouTube daily record carries the day's date. -/
theorem ytDay_post_date (t d : ℤ) : (ytDay t d).post.date = d := rfl

/-- The dates of the records built by the YouTube loop are exactly the
input dates, in order. -/
theorem yt_fold_dates (l : List ℤ) (acc : YtAcc) :
    ((l.foldl ytStep acc).daily).map YtDay.date = acc.daily.map YtDay.date ++ l := by
  induction l generalizing acc with
  | nil => simp
  | cons d l ih =>
      rw [List.foldl_cons, ih, ytStep_daily]
      simp [ytDay_post_date]

/-- The website fold step appends exactly one record. -/
theorem webStep_daily (acc : WebAcc) (d : ℤ) :
    (webStep acc d).daily = acc.daily ++ [(webDay acc.t d).post] := rfl

/-- The website daily record carries the day's date. -/
theorem webDay_post_date (t d : ℤ) : (webDay t d).post.date = d := rfl

/-- The dates of the records built by the website loop are exactly the
input dates, in order. -/
theorem web_fold_dates (l : List ℤ) (acc : WebAcc) :
    ((l.foldl webStep acc).daily).map WebDay.date = acc.daily.map WebDay.date ++ l := by
  induction l generalizing acc with
  | nil => simp
  | cons d l ih =>
      rw [List.foldl_cons, ih, webStep_daily]
      simp [webDay_post_date]

/-! ## Claim theorems -/

/-- Claim C1: each synthesizer is a pure, deterministic function of its
two date arguments — two calls `genLinkedInMock`, `genYouTubeMock`,
`genWebMock` on the same start and end dates yield identical
daily-record sequences and identical summary field values (the whole
result objects are equal).  Each call constructs its stream afresh from
a fixed seed, so nothing but the two dates enters the result. -/
theorem synthesizers_deterministic (s e : ℤ) :
    genLinkedInMock s e = genLinkedInMock s e ∧
    genYouTubeMock s e = genYouTubeMock s e ∧
    genWebMock s e = genWebMock s e :=
  ⟨rfl, rfl, rfl⟩

/-- Claim C3: `seeded(seed)` implements the specified multiplicative
linear congruential generator: the initial state is
`seed % 2147483647` (the code's truncating `%`), the `n`-th call updates
the state to `(state * 48271) % 2147483647` and returns the updated
state divided by `2147483647`, and hence for `n ≥ 1` the `n`-th state
has the closed form `((seed % p) * 48271 ^ n) % p` with
`p = 2147483647`, so the `n`-th output is that value divided by `p`. -/
theorem seeded_lcg_spec (seed : ℤ) (n : ℕ) (hn : 1 ≤ n) :
    seededState seed 0 = seed.tmod 2147483647 ∧
    (∀ m : ℕ,
      seededState seed (m + 1) = (seededState seed m * 48271).tmod 2147483647) ∧
    seededOut seed n = ((seededState seed n : ℤ) : ℚ) / 2147483647 ∧
    seededState seed n = (seed.tmod 2147483647 * 48271 ^ n).tmod 2147483647 ∧
    seededOut seed n =
      (((seed.tmod 2147483647 * 48271 ^ n).tmod 2147483647 : ℤ) : ℚ) / 2147483647 := by
  have hclosed : seededState seed n = (seed.tmod 2147483647 * 48271 ^ n).tmod 2147483647 :=
    lcgSteps_tmod_pow _ n hn
  refine ⟨rfl, fun m => rfl, rfl, hclosed, ?_⟩
  show ((seededState seed n : ℤ) : ℚ) / 2147483647 = _
  rw [hclosed]

/-- Witness for C3 at seed 42, first call. -/
theorem seeded_lcg_spec_witness :
    seededState 42 0 = (42 : ℤ).tmod 2147483647 ∧
    (∀ m : ℕ,
      seededState 42 (m + 1) = (seededState 42 m * 48271).tmod 2147483647) ∧
    seededOut 42 1 = ((seededState 42 1 : ℤ) : ℚ) / 2147483647 ∧
    seededState 42 1 = ((42 : ℤ).tmod 2147483647 * 48271 ^ 1).tmod 2147483647 ∧
    seededOut 42 1 =
      ((((42 : ℤ).tmod 2147483647 * 48271 ^ 1).tmod 2147483647 : ℤ) : ℚ) / 2147483647 :=
  seeded_lcg_spec 42 1 (by decide)

/-- Counterexample to claim C5 as stated: for the integer seed `-1` the
first output of the stream is negative (JavaScript `%` keeps the sign of
the dividend), so it does not lie in `[0, 1)`. -/
theorem seeded_negative_seed_cx : seededOut (-1) 1 < 0 := by
  with_unfolding_all decide

/-- Claim C5, amended: for every nonnegative integer seed and every
`n ≥ 1`, the `n`-th value produced by the function returned by
`seeded(seed)` lies in `[0, 1)`.  (For negative seeds the state and
hence the output is negative.) -/
theorem seeded_outputs_in_unit_interval (seed : ℤ) (hs : 0 ≤ seed) (n : ℕ) (hn : 1 ≤ n) :
    0 ≤ seededOut seed n ∧ seededOut seed n < 1 := by
  obtain ⟨m, rfl⟩ : ∃ m, n = m + 1 := ⟨n - 1, by omega⟩
  have h0 : 0 ≤ seeded seed := Int.tmod_nonneg _ hs
  have h1 : 0 ≤ lcgSteps m (seeded seed) := lcgSteps_nonneg h0 m
  have h2 : 0 ≤ lcgSteps (m + 1) (seeded seed) := lcgNext_nonneg h1
  have h3 : lcgSteps (m + 1) (seeded seed) < 2147483647 := lcgNext_lt _
  unfold seededOut seededState lcgOut
  constructor
  · have : (0 : ℚ) ≤ (lcgSteps (m + 1) (seeded seed) : ℚ) := by exact_mod_cast h2
    positivity
  · rw [div_lt_one (by norm_num)]
    exact_mod_cast h3

/-- Witness for the amended C5 at seed 42, first call. -/
theorem seeded_outputs_in_unit_interval_witness :
    0 ≤ seededOut 42 1 ∧ seededOut 42 1 < 1 :=
  seeded_outputs_in_unit_interval 42 (by decide) 1 (by decide)

/-- Counterexample to claim C9 as stated: the LinkedIn daily loop
advances the stream by seven draws per day, and from the concrete state
42 (the LinkedIn seed) no draw count between 2 and 6 reaches that state,
so the per-channel draw count is not "between 2 and 6". -/
theorem draw_count_cx :
    (liDay 42 0).t = lcgSteps 7 42 ∧
    ∀ k < 7, 2 ≤ k → lcgSteps k 42 ≠ (liDay 42 0).t := by decide

/-- Claim C9, amended: the per-day draw counts are fixed per channel but
range from 4 to 7, not 2 to 6: the LinkedIn loop body advances the
stream state by exactly 7 draws, the YouTube body by exactly 4, the
website body by exactly 6, and the draws occur in the same order on
every day and every call (each body is a pure function of the incoming
state). -/
theorem per_day_draw_counts (t date : ℤ) :
    (liDay t date).t = lcgSteps 7 t ∧
    (ytDay t date).t = lcgSteps 4 t ∧
    (webDay t date).t = lcgSteps 6 t :=
  ⟨liDay_t t date, ytDay_t t date, webDay_t t date⟩

/-- Claim C10: the real-API placeholder fetchers ignore every
credential/configuration argument — any two assignments of the
credentials give equal results, and each fetcher simply returns the
corresponding mock generator's output for its two dates. -/
theorem fetchers_ignore_credentials
    (token₁ accountId₁ token₂ accountId₂ : String)
    (apiKey₁ channelId₁ apiKey₂ channelId₂ : String)
    (provider₁ credential₁ propertyId₁ provider₂ credential₂ propertyId₂ : String)
    (s e : ℤ) :
    fetchLinkedInReal token₁ accountId₁ s e = fetchLinkedInReal token₂ accountId₂ s e ∧
    fetchYouTubeReal apiKey₁ channelId₁ s e = fetchYouTubeReal apiKey₂ channelId₂ s e ∧
    fetchWebReal provider₁ credential₁ propertyId₁ s e
      = fetchWebReal provider₂ credential₂ propertyId₂ s e ∧
    fetchLinkedInReal token₁ accountId₁ s e = genLinkedInMock s e ∧
    fetchYouTubeReal apiKey₁ channelId₁ s e = genYouTubeMock s e ∧
    fetchWebReal provider₁ credential₁ propertyId₁ s e = genWebMock s e :=
  ⟨rfl, rfl, rfl, rfl, rfl, rfl⟩

/-- Counterexample to claim C8 as stated: on the single-day range
2024-03-01 the two files' `genLinkedInMock` already disagree on the
summary `clicks` (15 in the dashboard file vs 12 in `App.jsx` — the
variant skips the `com`/`sha` draws, so the click-rate draw sees a
different stream position). -/
theorem variants_equal_cx :
    (genLinkedInMock (daysFromCivil 2024 3 1) (daysFromCivil 2024 3 1)).clicks ≠
      (AppVariant.genLinkedInMock (daysFromCivil 2024 3 1) (daysFromCivil 2024 3 1)).clicks := by
  with_unfolding_all decide

/-- Claim C8, amended: the variants share the same `seeded` stream and
`rangeDays` expansion, but their mock generators do not compute the same
data: each `App.jsx` daily loop draws fewer values (5/3/4 per day
instead of 7/4/6), so the computed records and summaries differ — on
concrete ranges the LinkedIn `clicks`, the YouTube `views` and the Web
`revenue` all disagree between the two files. -/
theorem variants_share_prng_but_differ :
    (∀ s : ℤ, AppVariant.seeded s = seeded s) ∧
    (∀ t : ℤ, AppVariant.lcgNext t = lcgNext t) ∧
    (∀ t : ℤ, AppVariant.draw t = draw t) ∧
    (∀ s e : ℤ, AppVariant.rangeDays s e = rangeDays s e) ∧
    (genLinkedInMock (daysFromCivil 2024 3 1) (daysFromCivil 2024 3 1)).clicks ≠
      (AppVariant.genLinkedInMock (daysFromCivil 2024 3 1) (daysFromCivil 2024 3 1)).clicks ∧
    (genYouTubeMock (daysFromCivil 2024 3 1) (daysFromCivil 2024 3 2)).views ≠
      (AppVariant.genYouTubeMock (daysFromCivil 2024 3 1) (daysFromCivil 2024 3 2)).views ∧
    (genWebMock (daysFromCivil 2024 3 1) (daysFromCivil 2024 3 1)).revenue ≠
      (AppVariant.genWebMock (daysFromCivil 2024 3 1) (daysFromCivil 2024 3 1)).revenue :=
  ⟨fun _ => rfl, fun _ => rfl, fun _ => rfl, fun _ _ => rfl,
   by with_unfolding_all decide, by with_unfolding_all decide,
   by with_unfolding_all decide⟩

/-- On an inverted range `genLinkedInMock` runs its loop zero times. -/
theorem genLi_inverted {s e : ℤ} (h : e < s) :
    genLinkedInMock s e = liFinish liInit := by
  show liFinish ((rangeDays s e).foldl liStep liInit) = liFinish liInit
  rw [rangeDays_of_inverted h]
  rfl

/-- On an inverted range `genYouTubeMock` runs its loop zero times. -/
theorem genYt_inverted {s e : ℤ} (h : e < s) :
    genYouTubeMock s e = ytFinish ytInit := by
  show ytFinish ((rangeDays s e).foldl ytStep ytInit) = ytFinish ytInit
  rw [rangeDays_of_inverted h]
  rfl

/-- On an inverted range `genWebMock` runs its loop zero times. -/
theorem genWeb_inverted {s e : ℤ} (h : e < s) :
    genWebMock s e = webFinish webInit := by
  show webFinish ((rangeDays s e).foldl webStep webInit) = webFinish webInit
  rw [rangeDays_of_inverted h]
  rfl

/-- Counterexample to claim C2 as stated: on the inverted range
2024-03-02..2024-03-01 `genLinkedInMock` does return an empty record
sequence, but its summary `ctr` field is NaN (`0 / 0` in JavaScript),
not zero. -/
theorem inverted_range_all_zero_cx :
    (genLinkedInMock (daysFromCivil 2024 3 2) (daysFromCivil 2024 3 1)).posts = [] ∧
    (genLinkedInMock (daysFromCivil 2024 3 2) (daysFromCivil 2024 3 1)).ctr ≠ jn 0 := by
  with_unfolding_all decide

/-- Claim C2, amended: for every DateRange with start > end each
synthesizer returns (without error) an empty daily-record sequence and
all-zero aggregate sums, and the guarded ratio `cpl` is 0 — but the
unguarded ratios computed from the zero sums are NaN, not 0: LinkedIn
`ctr` and `cpc` are `0 / 0 = NaN`, the YouTube `averageViewDuration` and
the Web `avgSessionDuration` divide by the empty list's length 0 and
are NaN, and the Web `bounceRate` keeps its constant value 0.46. -/
theorem inverted_range_behaviour (s e : ℤ) (h : e < s) :
    genLinkedInMock s e =
      ⟨jn 0, jn 0, jn 0, jn 0, JsNum.nan, JsNum.nan, jn 0, []⟩ ∧
    genYouTubeMock s e = ⟨jn 0, jn 0, jn 0, jn 0, JsNum.nan, []⟩ ∧
    genWebMock s e =
      ⟨jn 0, jn 0, jn 0, jn 0, jn 0, jn 0.46, JsNum.nan, []⟩ := by
  rw [genLi_inverted h, genYt_inverted h, genWeb_inverted h]
  refine ⟨?_, ?_, ?_⟩ <;> with_unfolding_all decide

/-- Witness for the amended C2 at the inverted range
2024-03-02..2024-03-01. -/
theorem inverted_range_behaviour_witness :
    genLinkedInMock (daysFromCivil 2024 3 2) (daysFromCivil 2024 3 1) =
      ⟨jn 0, jn 0, jn 0, jn 0, JsNum.nan, JsNum.nan, jn 0, []⟩ ∧
    genYouTubeMock (daysFromCivil 2024 3 2) (daysFromCivil 2024 3 1) =
      ⟨jn 0, jn 0, jn 0, jn 0, JsNum.nan, []⟩ ∧
    genWebMock (daysFromCivil 2024 3 2) (daysFromCivil 2024 3 1) =
      ⟨jn 0, jn 0, jn 0, jn 0, jn 0, jn 0.46, JsNum.nan, []⟩ :=
  inverted_range_behaviour _ _ (by decide)

/-- Claim C4: for start ≤ end the expanded range (and hence each
synthesizer's daily-record sequence, whose dates are exactly the
expanded range) has length equal to the inclusive number of calendar
days, and consecutive dates increase by exactly one day. -/
theorem range_expansion_spec (s e : ℤ) (h : s ≤ e) :
    (rangeDays s e).length = (e + 1 - s).toNat ∧
    (∀ i : ℕ, ∀ hi : i + 1 < (rangeDays s e).length,
      (rangeDays s e).get ⟨i + 1, hi⟩
        = (rangeDays s e).get ⟨i, Nat.lt_of_succ_lt hi⟩ + 1) ∧
    (genLinkedInMock s e).posts.map LiDay.date = rangeDays s e ∧
    (genYouTubeMock s e).daily.map YtDay.date = rangeDays s e ∧
    (genWebMock s e).daily.map WebDay.date = rangeDays s e := by
  refine ⟨by simp [rangeDays], fun i hi => ?_, ?_, ?_, ?_⟩
  · rw [rangeDays_get, rangeDays_get]
    push_cast
    ring
  · show ((rangeDays s e).foldl liStep liInit).posts.map LiDay.date = rangeDays s e
    rw [li_fold_dates]
    rfl
  · show ((rangeDays s e).foldl ytStep ytInit).daily.map YtDay.date = rangeDays s e
    rw [yt_fold_dates]
    rfl
  · show ((rangeDays s e).foldl webStep webInit).daily.map WebDay.date = rangeDays s e
    rw [web_fold_dates]
    rfl

/-- Witness for C4: the concrete scenarios 2024-03-01..2024-03-07
(seven days) and 2024-03-01..2024-03-01 (one day). -/
theorem range_expansion_spec_witness :
    (rangeDays (daysFromCivil 2024 3 1) (daysFromCivil 2024 3 7)).length = 7 ∧
    (rangeDays (daysFromCivil 2024 3 1) (daysFromCivil 2024 3 1)).length = 1 :=
  ⟨(range_expansion_spec _ _ (by decide)).1.trans (by decide),
   (range_expansion_spec _ _ (by decide)).1.trans (by decide)⟩

/-- The `cpl` guard of the post-loop summary: zero accumulated leads is
falsy, so the guard takes the `0` branch. -/
theorem liFinish_cpl_of_leads_zero (fin : LiAcc) (h : fin.leads = jn 0) :
    (liFinish fin).cpl = jn 0 := by
  show (if fin.leads.truthy then fin.spend / fin.leads else jn 0) = jn 0
  rw [h]
  rfl

/-- Claim C7: whenever the accumulated total leads of `genLinkedInMock`
is 0, the returned `cpl` is 0 (the source guards this ratio:
`leads ? spend / leads : 0`). -/
theorem zero_leads_cpl_zero (s e : ℤ) (h : (genLinkedInMock s e).leads = jn 0) :
    (genLinkedInMock s e).cpl = jn 0 :=
  liFinish_cpl_of_leads_zero _ h

/-- Witness for C7 at the inverted range 2024-03-02..2024-03-01 (zero
accumulated leads). -/
theorem zero_leads_cpl_zero_witness :
    (genLinkedInMock (daysFromCivil 2024 3 2) (daysFromCivil 2024 3 1)).leads = jn 0 ∧
    (genLinkedInMock (daysFromCivil 2024 3 2) (daysFromCivil 2024 3 1)).cpl = jn 0 :=
  ⟨by with_unfolding_all decide,
   zero_leads_cpl_zero _ _ (by with_unfolding_all decide)⟩

/-- The LinkedIn day's click increment, written out: it rounds
`imp * (0.012 + rnd() * 0.01)` where `imp` is the day's first rounded
draw and the rate draw is the day's fifth. -/
theorem liDay_clickAdd_eq (t d : ℤ) :
    (liDay t d).clickAdd =
      JsNum.num
        ((⌊((⌊(800 : ℚ) + lcgOut (lcgNext t) * 1800 + 1/2⌋ : ℤ) : ℚ)
            * (0.012 + lcgOut (lcgNext (lcgSteps 4 t)) * 0.01) + 1/2⌋ : ℤ) : ℚ) := rfl

/-- From a nonnegative stream state the day's click increment is an
integer of at least 10: `imp ≥ 800` and the rate factor is at least
`0.012`, so the rounded product is at least `round(9.6) = 10`. -/
theorem liDay_clickAdd_ge_ten {t : ℤ} (ht : 0 ≤ t) (d : ℤ) :
    ∃ k : ℤ, (liDay t d).clickAdd = JsNum.num (k : ℚ) ∧ 10 ≤ k := by
  refine ⟨_, liDay_clickAdd_eq t d, ?_⟩
  have h1 : 0 ≤ lcgOut (lcgNext t) := lcgOut_nonneg ht
  have h5 : 0 ≤ lcgOut (lcgNext (lcgSteps 4 t)) := lcgOut_nonneg (lcgSteps_nonneg ht 4)
  set q1 := lcgOut (lcgNext t) with hq1
  set q5 := lcgOut (lcgNext (lcgSteps 4 t)) with hq5
  have hi : (800 : ℤ) ≤ ⌊(800 : ℚ) + q1 * 1800 + 1/2⌋ := by
    apply Int.le_floor.mpr
    push_cast
    nlinarith
  set i : ℤ := ⌊(800 : ℚ) + q1 * 1800 + 1/2⌋ with hidef
  have hi2 : (800 : ℚ) ≤ (i : ℚ) := by exact_mod_cast hi
  apply Int.le_floor.mpr
  have key : (800 : ℚ) * 0.012 ≤ (i : ℚ) * (0.012 + q5 * 0.01) := by
    apply mul_le_mul hi2 (by nlinarith) (by norm_num) (by linarith)
  push_cast
  norm_num at key ⊢
  linarith

/-- Over any nonempty day list started from a nonnegative stream state,
every day adds at least 10 clicks, so the accumulated `clicks` sum grows
by at least `10 · length`. -/
theorem li_fold_clicks (l : List ℤ) :
    ∀ acc : LiAcc, 0 ≤ acc.t → ∀ c₀ : ℚ, acc.clicks = JsNum.num c₀ →
      ∃ c : ℚ, (l.foldl liStep acc).clicks = JsNum.num c ∧
        c₀ + 10 * (l.length : ℚ) ≤ c := by
  induction l with
  | nil =>
      intro acc _ c₀ hc
      exact ⟨c₀, hc, by simp⟩
  | cons d l ih =>
      intro acc ht c₀ hc
      obtain ⟨k, hk, hk10⟩ := liDay_clickAdd_ge_ten ht d
      have ht2 : 0 ≤ (liStep acc d).t := by
        rw [liStep_t, liDay_t]
        exact lcgSteps_nonneg ht 7
      have hc2 : (liStep acc d).clicks = JsNum.num (c₀ + (k : ℚ)) := by
        rw [liStep_clicks, hc, hk]
        rfl
      obtain ⟨c, h1, h2⟩ := ih _ ht2 _ hc2
      refine ⟨c, by rw [List.foldl_cons]; exact h1, ?_⟩
      have hk2 : (10 : ℚ) ≤ (k : ℚ) := by exact_mod_cast hk10
      have hlen : ((d :: l).length : ℚ) = (l.length : ℚ) + 1 := by
        simp
      rw [hlen]
      linarith

/-- Counterexample to claim C6 as stated: on the inverted range
2024-03-02..2024-03-01 the accumulated clicks are 0 (and so is the
accumulated spend), and `cpc = spend / clicks = 0 / 0` is NaN, not 0 —
the source computes `const cpc = spend / clicks` without any guard. -/
theorem zero_clicks_cpc_cx :
    (genLinkedInMock (daysFromCivil 2024 3 2) (daysFromCivil 2024 3 1)).clicks = jn 0 ∧
    (genLinkedInMock (daysFromCivil 2024 3 2) (daysFromCivil 2024 3 1)).cpc ≠ jn 0 := by
  with_unfolding_all decide

/-- Claim C6, amended: whenever the accumulated total clicks of
`genLinkedInMock` is 0 (which happens exactly on ranges that expand to
no days, where the accumulated spend is 0 as well), the returned `cpc`
is NaN (`0 / 0`), not 0: the `cpc` ratio is unguarded in the source. -/
theorem zero_clicks_cpc_nan (s e : ℤ) (h : (genLinkedInMock s e).clicks = jn 0) :
    (genLinkedInMock s e).cpc = JsNum.nan := by
  rcases hl : rangeDays s e with _ | ⟨d, l⟩
  · show (liFinish ((rangeDays s e).foldl liStep liInit)).cpc = JsNum.nan
    rw [hl]
    with_unfolding_all decide
  · exfalso
    have ht : 0 ≤ liInit.t := by decide
    have h0 : liInit.clicks = JsNum.num 0 := rfl
    obtain ⟨c, h1, h2⟩ := li_fold_clicks (d :: l) liInit ht 0 h0
    have hgen : (genLinkedInMock s e).clicks = JsNum.num c := by
      show (liFinish ((rangeDays s e).foldl liStep liInit)).clicks = _
      rw [hl]
      exact h1
    have hc : JsNum.num (0 : ℚ) = JsNum.num c := h.symm.trans hgen
    have hc0 : (0 : ℚ) = c := by injection hc
    have hlen : (1 : ℚ) ≤ ((d :: l).length : ℚ) := by
      have he : ((d :: l).length : ℚ) = (l.length : ℚ) + 1 := by simp
      have hnn : (0 : ℚ) ≤ (l.length : ℚ) := Nat.cast_nonneg _
      linarith
    linarith

/-- Witness for the amended C6 at the inverted range
2024-03-02..2024-03-01. -/
theorem zero_clicks_cpc_nan_witness :
    (genLinkedInMock (daysFromCivil 2024 3 2) (daysFromCivil 2024 3 1)).clicks = jn 0 ∧
    (genLinkedInMock (daysFromCivil 2024 3 2) (daysFromCivil 2024 3 1)).cpc = JsNum.nan :=
  ⟨by with_unfolding_all decide,
   zero_clicks_cpc_nan _ _ (by with_unfolding_all decide)⟩

end KpiDashboard
